import Mathlib

/-!
Verification of the configuration front-end of Pound (src/config.c).

This file shallowly embeds the parts of `config.c` that the checked
properties are about: the include-file input stack (`push_input`), the
token-expectation helper (`gettkn_expect_mask`), the typed value parsers
(`assign_bool`, `assign_log_facility`, `set_proto_opt`, `assign_redirect`,
`assign_address_internal`), the session synthesis (`parse_session`), the
priority aggregation in `parse_service` and the TLS statement ordering of
`parse_listen_https`.  Machine integers are modelled as `Nat`/`Int`;
fallible C functions return `Except` or an explicit result sum; a compiled
POSIX regex (`regex_t`) is modelled syntactically as its pattern string
together with its compilation flags.
-/

namespace Pound

/-! ## Tokens (config.c lines 31-70)

`T_IDENT`, `T_NUMBER`, `T_STRING`, `T_LITERAL` carry a lexeme; a newline
and single characters are their own token types; `EOF` and `T_ERROR` are
special scanner outcomes. -/

inductive TokType where
  | ident
  | number
  | string
  | literal
  /-- The newline token `'\n'`. -/
  | nl
  deriving DecidableEq, Repr

structure Token where
  type : TokType
  str : String
  deriving DecidableEq, Repr

/-- Outcome of `gettkn`: end of file, a scan error (`T_ERROR`), or a
token (a newline token has type `.nl`). -/
inductive ScanResult where
  | eof
  | scanError
  | tok (t : Token)
  deriving DecidableEq, Repr

/-- A token-type mask (the `TOKENMASK` bitset); `T_ANY` accepts anything. -/
def TokenMask := TokType → Bool

/-- `T_UNQ`: unquoted character sequence, `T_IDENT | T_NUMBER | T_LITERAL`
(config.c line 49). -/
def T_UNQ : TokenMask := fun t =>
  match t with
  | .ident => true
  | .number => true
  | .literal => true
  | .string => false
  | .nl => false

/-- Mask accepting exactly one token type (`T_BIT`). -/
def T_BIT1 (ty : TokType) : TokenMask := fun t => decide (t = ty)

/-- `gettkn_expect_mask` (config.c lines 841-867): returns the token when
it is neither `EOF`, `T_ERROR`, nor outside the expected mask; otherwise
it emits a diagnostic (except for `T_ERROR`, already diagnosed) and
returns the null pointer, modelled as `none`.  `expect = none` models the
`T_ANY` mask of 0, which accepts any token. -/
def gettkn_expect_mask (expect : Option TokenMask) (g : ScanResult) : Option Token :=
  match g with
  | .eof => none
  | .scanError => none
  | .tok t =>
      match expect with
      | none => some t
      | some m => if m t.type then some t else none

/-! ## Include input stack (config.c lines 202-218, 787-829)

Each open input carries the device and inode numbers of its file, used
for self-include detection.  The stack is modelled with its top
(`cur_input`) first; the root of the stack (the entry whose `prev` is
NULL) is the last element of the list. -/

structure Input where
  devno : Nat
  ino : Nat
  deriving DecidableEq, Repr

/-- Outcome of `push_input`. -/
inductive PushOutcome where
  | ok
  /-- Diagnostic "%s already included": the colliding entry has a
  non-null `prev`. -/
  | alreadyIncluded
  /-- Diagnostic "%s already included (at top level)": the colliding
  entry is the root of the stack. -/
  | alreadyIncludedAtTopLevel
  /-- `stat` failed on the include target. -/
  | statFailed
  deriving DecidableEq, Repr

/-- The loop of `push_input` (config.c lines 799-814): walk the stack from
`cur_input` down; at the first entry with the same (inode, device) report
whether that entry has a non-null `prev`, i.e. whether it is not the last
entry. -/
def scan_stack (dev ino : Nat) : List Input → Option Bool
  | [] => none
  | i :: rest =>
      if i.ino = ino ∧ i.devno = dev then some rest.isEmpty
      else scan_stack dev ino rest

/-- `push_input` (config.c lines 787-823).  `statRes` is the result of
`stat(filename)` restricted to the fields the function reads
(`st_dev`, `st_ino`); `none` models a failed `stat`.  On success the new
input becomes the top of the stack; on any failure the stack is
returned unchanged. -/
def push_input (st : List Input) (statRes : Option (Nat × Nat)) :
    PushOutcome × List Input :=
  match statRes with
  | none => (.statFailed, st)
  | some (dev, ino) =>
      match scan_stack dev ino st with
      | some true => (.alreadyIncludedAtTopLevel, st)
      | some false => (.alreadyIncluded, st)
      | none => (.ok, ⟨dev, ino⟩ :: st)

/-- The (device, inode) key of an input. -/
def Input.key (i : Input) : Nat × Nat := (i.devno, i.ino)

theorem scan_stack_eq_none_iff (dev ino : Nat) (st : List Input) :
    scan_stack dev ino st = none ↔ (⟨dev, ino⟩ : Input) ∉ st := by
  induction st with
  | nil => simp [scan_stack]
  | cons i rest ih =>
      simp only [scan_stack, List.mem_cons]
      by_cases h : i.ino = ino ∧ i.devno = dev
      · have : i = ⟨dev, ino⟩ := by
          cases i; simp_all
        simp [h, this]
      · have hne : ¬ i = ⟨dev, ino⟩ := by
          intro he; apply h; subst he; exact ⟨rfl, rfl⟩
        have hne' : ¬ (⟨dev, ino⟩ : Input) = i := fun he => hne he.symm
        simp [h, hne', ih]

theorem scan_stack_append_not_found (dev ino : Nat) (l rest : List Input)
    (hl : (⟨dev, ino⟩ : Input) ∉ l) :
    scan_stack dev ino (l ++ rest) = scan_stack dev ino rest := by
  induction l with
  | nil => simp
  | cons i l ih =>
      have hi : ¬ (i.ino = ino ∧ i.devno = dev) := by
        intro ⟨h1, h2⟩
        apply hl
        have : i = ⟨dev, ino⟩ := by cases i; simp_all
        simp [this]
      have hl' : (⟨dev, ino⟩ : Input) ∉ l := fun h => hl (List.mem_cons_of_mem _ h)
      simp only [List.cons_append, scan_stack, hi, if_false]
      simpa [hi] using ih hl'

/-- C1: `push_input` refuses to push an include target whose (device,
inode) equals that of any input already open on the stack — leaving the
stack unchanged, with the "at top level" diagnostic exactly when the
colliding entry is the root of the stack (the entry with a null `prev`)
and the plain "already included" diagnostic when it is an inner entry —
and otherwise pushes the new input on top; consequently a stack of
pairwise-distinct (device, inode) pairs still has pairwise-distinct
entries after `push_input`. -/
theorem C1_push_input_include_stack_distinct (st : List Input) (dev ino : Nat)
    (hnd : st.Nodup) :
    ((⟨dev, ino⟩ : Input) ∈ st →
        (push_input st (some (dev, ino))).1 ≠ .ok ∧
        (push_input st (some (dev, ino))).2 = st) ∧
    ((⟨dev, ino⟩ : Input) ∉ st →
        push_input st (some (dev, ino)) = (.ok, ⟨dev, ino⟩ :: st) ∧
        (⟨dev, ino⟩ :: st).Nodup) ∧
    (∀ l, st = l ++ [⟨dev, ino⟩] → (⟨dev, ino⟩ : Input) ∉ l →
        (push_input st (some (dev, ino))).1 = .alreadyIncludedAtTopLevel) ∧
    (∀ l rest, st = l ++ ⟨dev, ino⟩ :: rest → rest ≠ [] →
        (⟨dev, ino⟩ : Input) ∉ l →
        (push_input st (some (dev, ino))).1 = .alreadyIncluded) := by
  refine ⟨?_, ?_, ?_, ?_⟩
  · intro hmem
    rcases h : scan_stack dev ino st with _ | b
    · exact absurd ((scan_stack_eq_none_iff dev ino st).mp h) (by simpa using hmem)
    · cases b <;> simp [push_input, h]
  · intro hmem
    have h : scan_stack dev ino st = none :=
      (scan_stack_eq_none_iff dev ino st).mpr hmem
    exact ⟨by simp [push_input, h], List.nodup_cons.mpr ⟨hmem, hnd⟩⟩
  · intro l hst hl
    subst hst
    have h : scan_stack dev ino (l ++ [⟨dev, ino⟩]) = some true := by
      rw [scan_stack_append_not_found dev ino l _ hl]
      simp [scan_stack]
    simp [push_input, h]
  · intro l rest hst hrest hl
    subst hst
    have h : scan_stack dev ino (l ++ ⟨dev, ino⟩ :: rest) = some false := by
      rw [scan_stack_append_not_found dev ino l _ hl]
      simp [scan_stack, List.isEmpty_iff, hrest]
    simp [push_input, h]

/-- Witness for C1 at a concrete stack: pushing a fresh (device, inode)
onto a one-entry stack succeeds and keeps the entries distinct, and
re-pushing the root is refused with the "at top level" outcome. -/
theorem C1_push_input_include_stack_distinct_witness :
    (push_input [⟨1, 2⟩] (some (3, 4)) = (.ok, [⟨3, 4⟩, ⟨1, 2⟩]) ∧
      ([⟨3, 4⟩, ⟨1, 2⟩] : List Input).Nodup) ∧
    (push_input [⟨3, 4⟩, ⟨1, 2⟩] (some (1, 2))).1 =
      .alreadyIncludedAtTopLevel :=
  ⟨(C1_push_input_include_stack_distinct [⟨1, 2⟩] 3 4 (by decide)).2.1
      (by decide),
   (C1_push_input_include_stack_distinct [⟨3, 4⟩, ⟨1, 2⟩] 1 2
        (by decide)).2.2.1 [⟨3, 4⟩] (by decide) (by decide)⟩

/-! ## Session synthesis (config.c lines 1953-2097)

A compiled POSIX regex (`regex_t`) is modelled syntactically by its
pattern string and compilation flags; the regex compiler itself is an
external collaborator (libc `regcomp`) and is modelled as total. -/

structure Regex where
  pattern : String
  icase : Bool
  newline : Bool
  extended : Bool
  deriving DecidableEq, Repr

/-- A regex compiled with `REG_ICASE | REG_NEWLINE | REG_EXTENDED`, the
flag set used for every regex in `parse_session`. -/
def mkSessRegex (pat : String) : Regex :=
  { pattern := pat, icase := true, newline := true, extended := true }

/-- Session types (`SESS_*`). -/
inductive SessType where
  | SESS_NONE
  | SESS_IP
  | SESS_COOKIE
  | SESS_URL
  | SESS_PARM
  | SESS_BASIC
  | SESS_HEADER
  deriving DecidableEq, Repr

/-- `struct service_session` (config.c lines 1953-1958), as filled in by
the `Session` section statement loop: `type` defaults to 0 (`SESS_NONE`),
`id` to NULL, `ttl` to 0 (the struct is `memset` to zero at line 2021). -/
structure ServiceSession where
  type : SessType
  id : Option String
  ttl : Nat
  deriving DecidableEq, Repr

/-- The session-related fields of `SERVICE` written by `parse_session`:
the two synthesised regexes (absent for `SESS_IP`, whose case is missing
from the `switch`), the TTL and the type. -/
structure SessionSvcFields where
  sess_start : Option Regex
  sess_pat : Option Regex
  sess_ttl : Nat
  sess_type : SessType
  deriving DecidableEq, Repr

/-- The tail of `parse_session` (config.c lines 2025-2096): validation of
the collected `service_session`, then synthesis of the two session
regexes by `type`, then copying TTL and type into the service.  In the
`SESS_COOKIE`/`SESS_URL`/`SESS_HEADER` branches `sess.id` is non-null
thanks to the check at lines 2037-2042; `Option.getD ""` supplies the
don't-care value for the unreachable null case. -/
def parse_session_finish (sess : ServiceSession) : Except String SessionSvcFields :=
  if sess.type = .SESS_NONE then .error "Session type not defined"
  else if sess.ttl = 0 then .error "Session TTL not defined"
  else if (sess.type = .SESS_COOKIE ∨ sess.type = .SESS_URL ∨
           sess.type = .SESS_HEADER) ∧ sess.id = none then
    .error "Session ID not defined"
  else
    let rx : Option Regex × Option Regex :=
      match sess.type with
      | .SESS_COOKIE =>
          (some (mkSessRegex ("Cookie[^:]*:.*[ \t]" ++ sess.id.getD "" ++ "=")),
           some (mkSessRegex "([^;]*)"))
      | .SESS_URL =>
          (some (mkSessRegex ("[?&]" ++ sess.id.getD "" ++ "=")),
           some (mkSessRegex "([^&;#]*)"))
      | .SESS_PARM =>
          (some (mkSessRegex ";"),
           some (mkSessRegex "([^?]*)"))
      | .SESS_BASIC =>
          (some (mkSessRegex "Authorization:[ \t]*Basic[ \t]*"),
           some (mkSessRegex "([^ \t]*)"))
      | .SESS_HEADER =>
          (some (mkSessRegex (sess.id.getD "" ++ ":[ \t]*")),
           some (mkSessRegex "([^ \t]*)"))
      | _ => (none, none)
    .ok { sess_start := rx.1, sess_pat := rx.2,
          sess_ttl := sess.ttl, sess_type := sess.type }

/-- C2: for every accepted `Session` section the two session regexes are
synthesised exactly as tabulated for the configured type, with the
configured ID embedded verbatim, all compiled with the case-insensitive,
newline and extended flags, and the TTL and type copied into the
service; `IP` synthesises no regex. -/
theorem C2_session_regex_synthesis (id : String) (idOpt : Option String)
    (ttl : Nat) (h : 0 < ttl) :
    parse_session_finish ⟨.SESS_COOKIE, some id, ttl⟩ =
      .ok ⟨some ⟨"Cookie[^:]*:.*[ \t]" ++ id ++ "=", true, true, true⟩,
           some ⟨"([^;]*)", true, true, true⟩, ttl, .SESS_COOKIE⟩ ∧
    parse_session_finish ⟨.SESS_URL, some id, ttl⟩ =
      .ok ⟨some ⟨"[?&]" ++ id ++ "=", true, true, true⟩,
           some ⟨"([^&;#]*)", true, true, true⟩, ttl, .SESS_URL⟩ ∧
    parse_session_finish ⟨.SESS_PARM, idOpt, ttl⟩ =
      .ok ⟨some ⟨";", true, true, true⟩,
           some ⟨"([^?]*)", true, true, true⟩, ttl, .SESS_PARM⟩ ∧
    parse_session_finish ⟨.SESS_BASIC, idOpt, ttl⟩ =
      .ok ⟨some ⟨"Authorization:[ \t]*Basic[ \t]*", true, true, true⟩,
           some ⟨"([^ \t]*)", true, true, true⟩, ttl, .SESS_BASIC⟩ ∧
    parse_session_finish ⟨.SESS_HEADER, some id, ttl⟩ =
      .ok ⟨some ⟨id ++ ":[ \t]*", true, true, true⟩,
           some ⟨"([^ \t]*)", true, true, true⟩, ttl, .SESS_HEADER⟩ ∧
    parse_session_finish ⟨.SESS_IP, idOpt, ttl⟩ =
      .ok ⟨none, none, ttl, .SESS_IP⟩ := by
  have hne : ttl ≠ 0 := Nat.pos_iff_ne_zero.mp h
  refine ⟨?_, ?_, ?_, ?_, ?_, ?_⟩ <;>
    simp [parse_session_finish, mkSessRegex, hne]

/-- Witness for C2 at the spec's scenario B: a COOKIE session with ID
"JSESSIONID" and TTL 300. -/
theorem C2_session_regex_synthesis_witness :
    parse_session_finish ⟨.SESS_COOKIE, some "JSESSIONID", 300⟩ =
      .ok ⟨some ⟨"Cookie[^:]*:.*[ \t]JSESSIONID=", true, true, true⟩,
           some ⟨"([^;]*)", true, true, true⟩, 300, .SESS_COOKIE⟩ :=
  (C2_session_regex_synthesis "JSESSIONID" none 300 (by decide)).1

/-! ### The regex-compilation failure channel of `parse_session`

`parse_session_finish` above models the external regex compiler as
total; the real `parse_session` also fails when one of its `xregcomp`
calls (config.c lines 2049-2087) rejects a synthesized pattern — which
can happen when the configured ID is an invalid regex fragment.  The
definitions below retain that channel. -/

/-- Scanner modes of the extended-regex well-formedness scan: normal
text, after a backslash, just after `[`, just after `[^`, inside a
bracket expression. -/
inductive EreMode where
  | norm
  | esc
  | brStart
  | brCaret
  | brBody
  deriving DecidableEq, Repr

/-- Modelled from the external POSIX regular-expression compiler (libc
`regcomp` with `REG_EXTENDED`, outside this repository): a structural
well-formedness scan.  Groups must balance (`regcomp` reports
REG_EPAREN for an unmatched parenthesis), bracket expressions must be
closed (REG_EBRACK) — with a `]` directly after `[` or `[^` literal and
backslash not special inside brackets — and a trailing backslash is an
error (REG_EESCAPE). -/
def ere_scan : List Char → Nat → EreMode → Bool
  | [], depth, m =>
      match m with
      | .norm => depth == 0
      | _ => false
  | c :: rest, depth, m =>
      match m with
      | .norm =>
          if c = '\\' then ere_scan rest depth .esc
          else if c = '(' then ere_scan rest (depth + 1) .norm
          else if c = ')' then
            match depth with
            | 0 => false
            | d + 1 => ere_scan rest d .norm
          else if c = '[' then ere_scan rest depth .brStart
          else ere_scan rest depth .norm
      | .esc => ere_scan rest depth .norm
      | .brStart =>
          if c = '^' then ere_scan rest depth .brCaret
          else ere_scan rest depth .brBody
      | .brCaret => ere_scan rest depth .brBody
      | .brBody =>
          if c = ']' then ere_scan rest depth .norm
          else ere_scan rest depth .brBody

/-- Verdict of the external regex compiler on a pattern. -/
def regcomp_ok (pat : String) : Bool :=
  ere_scan pat.toList 0 .norm

/-- The two consecutive `xregcomp` calls of one `parse_session` switch
branch (config.c lines 2047-2088): compile `sess_start`, then
`sess_pattern`; a compiler rejection aborts with the "regular
expression: %s" echo line that `conf_regcomp_error` emits. -/
def xregcomp_pair (p1 p2 : String) (ttl : Nat) (ty : SessType) :
    Except String SessionSvcFields :=
  if regcomp_ok p1 then
    if regcomp_ok p2 then
      .ok { sess_start := some (mkSessRegex p1),
            sess_pat := some (mkSessRegex p2),
            sess_ttl := ttl, sess_type := ty }
    else .error ("regular expression: " ++ p2)
  else .error ("regular expression: " ++ p1)

/-- The tail of `parse_session` (config.c lines 2025-2096) with the
regex-compilation channel retained: after the three validation checks,
each switch branch compiles its two patterns with `xregcomp`, whose
failure also aborts the section.  `parse_session_finish` is this
function under the assumption that the compiler accepts the synthesized
patterns. -/
def parse_session_regcomp (sess : ServiceSession) :
    Except String SessionSvcFields :=
  if sess.type = .SESS_NONE then .error "Session type not defined"
  else if sess.ttl = 0 then .error "Session TTL not defined"
  else if (sess.type = .SESS_COOKIE ∨ sess.type = .SESS_URL ∨
           sess.type = .SESS_HEADER) ∧ sess.id = none then
    .error "Session ID not defined"
  else
    match sess.type with
    | .SESS_COOKIE =>
        xregcomp_pair ("Cookie[^:]*:.*[ \t]" ++ sess.id.getD "" ++ "=")
          "([^;]*)" sess.ttl .SESS_COOKIE
    | .SESS_URL =>
        xregcomp_pair ("[?&]" ++ sess.id.getD "" ++ "=") "([^&;#]*)"
          sess.ttl .SESS_URL
    | .SESS_PARM => xregcomp_pair ";" "([^?]*)" sess.ttl .SESS_PARM
    | .SESS_BASIC =>
        xregcomp_pair "Authorization:[ \t]*Basic[ \t]*" "([^ \t]*)"
          sess.ttl .SESS_BASIC
    | .SESS_HEADER =>
        xregcomp_pair (sess.id.getD "" ++ ":[ \t]*") "([^ \t]*)"
          sess.ttl .SESS_HEADER
    | _ => .ok { sess_start := none, sess_pat := none,
                 sess_ttl := sess.ttl, sess_type := sess.type }

theorem xregcomp_pair_error_iff (p1 p2 : String) (ttl : Nat)
    (ty : SessType) (h2 : regcomp_ok p2 = true) :
    (∃ msg, xregcomp_pair p1 p2 ttl ty = .error msg) ↔
      regcomp_ok p1 = false := by
  unfold xregcomp_pair
  rcases hrc : regcomp_ok p1 with _ | _
  · simp [hrc]
  · simp [hrc, h2]

theorem xregcomp_pair_ok_fields (p1 p2 : String) (ttl : Nat)
    (ty : SessType) (f : SessionSvcFields)
    (h : xregcomp_pair p1 p2 ttl ty = .ok f) :
    f.sess_ttl = ttl ∧ f.sess_type = ty := by
  unfold xregcomp_pair at h
  by_cases h1 : regcomp_ok p1 = true
  · rw [if_pos h1] at h
    by_cases hp2 : regcomp_ok p2 = true
    · rw [if_pos hp2] at h
      cases h
      exact ⟨rfl, rfl⟩
    · rw [if_neg hp2] at h
      cases h
  · rw [if_neg h1] at h
    cases h

theorem parse_session_regcomp_ok_fields (sess : ServiceSession)
    (f : SessionSvcFields) (h : parse_session_regcomp sess = .ok f) :
    f.sess_ttl = sess.ttl ∧ f.sess_type = sess.type ∧
    sess.type ≠ .SESS_NONE ∧ sess.ttl ≠ 0 ∧
    ((sess.type = .SESS_COOKIE ∨ sess.type = .SESS_URL ∨
      sess.type = .SESS_HEADER) → sess.id ≠ none) := by
  obtain ⟨ty, id, ttl⟩ := sess
  simp only [parse_session_regcomp] at h
  by_cases h0 : ty = .SESS_NONE
  · rw [if_pos h0] at h; cases h
  · rw [if_neg h0] at h
    by_cases h1 : ttl = 0
    · rw [if_pos h1] at h; cases h
    · rw [if_neg h1] at h
      by_cases h2 : (ty = .SESS_COOKIE ∨ ty = .SESS_URL ∨
          ty = .SESS_HEADER) ∧ id = none
      · rw [if_pos h2] at h; cases h
      · rw [if_neg h2] at h
        have hid : (ty = .SESS_COOKIE ∨ ty = .SESS_URL ∨
            ty = .SESS_HEADER) → id ≠ none :=
          fun htriple hidn => h2 ⟨htriple, hidn⟩
        cases ty with
        | SESS_NONE => exact absurd rfl h0
        | SESS_IP => cases h; exact ⟨rfl, rfl, h0, h1, hid⟩
        | SESS_COOKIE =>
            obtain ⟨hf1, hf2⟩ := xregcomp_pair_ok_fields _ _ _ _ f h
            exact ⟨hf1, hf2, h0, h1, hid⟩
        | SESS_URL =>
            obtain ⟨hf1, hf2⟩ := xregcomp_pair_ok_fields _ _ _ _ f h
            exact ⟨hf1, hf2, h0, h1, hid⟩
        | SESS_PARM =>
            obtain ⟨hf1, hf2⟩ := xregcomp_pair_ok_fields _ _ _ _ f h
            exact ⟨hf1, hf2, h0, h1, hid⟩
        | SESS_BASIC =>
            obtain ⟨hf1, hf2⟩ := xregcomp_pair_ok_fields _ _ _ _ f h
            exact ⟨hf1, hf2, h0, h1, hid⟩
        | SESS_HEADER =>
            obtain ⟨hf1, hf2⟩ := xregcomp_pair_ok_fields _ _ _ _ f h
            exact ⟨hf1, hf2, h0, h1, hid⟩

/-- C3 counterexample: a COOKIE session with ID "(" and TTL 300
satisfies none of the claim's three failure conditions — the type is
defined, the TTL is positive and an ID was given — yet `parse_session`
fails: the synthesized `sess_start` pattern `Cookie[^:]*:.*[ \t](=` has
an unmatched parenthesis, so `xregcomp` (config.c line 2049) rejects it
(REG_EPAREN) and the section FAILs.  This refutes the claim's "only if"
direction. -/
theorem C3_session_validation_counterexample :
    parse_session_regcomp ⟨.SESS_COOKIE, some "(", 300⟩ =
      .error "regular expression: Cookie[^:]*:.*[ \t](=" ∧
    ¬((SessType.SESS_COOKIE = .SESS_NONE) ∨ (300 : Nat) = 0 ∨
      ((SessType.SESS_COOKIE = .SESS_COOKIE ∨
        SessType.SESS_COOKIE = .SESS_URL ∨
        SessType.SESS_COOKIE = .SESS_HEADER) ∧
       (some "(" : Option String) = none)) := by
  constructor
  · rfl
  · decide

/-- C3 (amended): `parse_session` reports failure if and only if, at
the end of the Session section, the session type is undefined, or the
TTL is 0, or the type is COOKIE, URL or HEADER and no ID was given, or
the regex compiler rejects the synthesized `sess_start` pattern that
embeds the ID (the fixed patterns always compile, so this channel only
opens for COOKIE, URL and HEADER); consequently every session in an
accepted configuration still has a defined type, TTL > 0, and — for
COOKIE/URL/HEADER — a non-null ID. -/
theorem C3_session_validation_amended (sess : ServiceSession) :
    ((∃ msg, parse_session_regcomp sess = .error msg) ↔
      (sess.type = .SESS_NONE ∨ sess.ttl = 0 ∨
       ((sess.type = .SESS_COOKIE ∨ sess.type = .SESS_URL ∨
         sess.type = .SESS_HEADER) ∧ sess.id = none) ∨
       (sess.type = .SESS_COOKIE ∧
         regcomp_ok ("Cookie[^:]*:.*[ \t]" ++ sess.id.getD "" ++ "=")
           = false) ∨
       (sess.type = .SESS_URL ∧
         regcomp_ok ("[?&]" ++ sess.id.getD "" ++ "=") = false) ∨
       (sess.type = .SESS_HEADER ∧
         regcomp_ok (sess.id.getD "" ++ ":[ \t]*") = false))) ∧
    (∀ f, parse_session_regcomp sess = .ok f →
      f.sess_type ≠ .SESS_NONE ∧ 0 < f.sess_ttl ∧
      ((f.sess_type = .SESS_COOKIE ∨ f.sess_type = .SESS_URL ∨
        f.sess_type = .SESS_HEADER) → sess.id ≠ none)) := by
  have hc1 : regcomp_ok "([^;]*)" = true := by decide
  have hc2 : regcomp_ok "([^&;#]*)" = true := by decide
  have hc3 : regcomp_ok ";" = true := by decide
  have hc4 : regcomp_ok "([^?]*)" = true := by decide
  have hc5 : regcomp_ok "Authorization:[ \t]*Basic[ \t]*" = true := by decide
  have hc6 : regcomp_ok "([^ \t]*)" = true := by decide
  constructor
  · obtain ⟨ty, id, ttl⟩ := sess
    cases ty with
    | SESS_NONE => simp [parse_session_regcomp]
    | SESS_IP =>
        by_cases h1 : ttl = 0 <;> simp [parse_session_regcomp, h1]
    | SESS_PARM =>
        by_cases h1 : ttl = 0
        · simp [parse_session_regcomp, h1]
        · simp [parse_session_regcomp, xregcomp_pair, h1, hc3, hc4]
    | SESS_BASIC =>
        by_cases h1 : ttl = 0
        · simp [parse_session_regcomp, h1]
        · simp [parse_session_regcomp, xregcomp_pair, h1, hc5, hc6]
    | SESS_COOKIE =>
        by_cases h1 : ttl = 0
        · simp [parse_session_regcomp, h1]
        · rcases id with _ | i
          · simp [parse_session_regcomp, h1]
          · have he := xregcomp_pair_error_iff
              ("Cookie[^:]*:.*[ \t]" ++ i ++ "=") "([^;]*)" ttl
              .SESS_COOKIE hc1
            simp [parse_session_regcomp, h1, he]
    | SESS_URL =>
        by_cases h1 : ttl = 0
        · simp [parse_session_regcomp, h1]
        · rcases id with _ | i
          · simp [parse_session_regcomp, h1]
          · have he := xregcomp_pair_error_iff
              ("[?&]" ++ i ++ "=") "([^&;#]*)" ttl .SESS_URL hc2
            simp [parse_session_regcomp, h1, he]
    | SESS_HEADER =>
        by_cases h1 : ttl = 0
        · simp [parse_session_regcomp, h1]
        · rcases id with _ | i
          · simp [parse_session_regcomp, h1]
          · have he := xregcomp_pair_error_iff
              (i ++ ":[ \t]*") "([^ \t]*)" ttl .SESS_HEADER hc6
            simp [parse_session_regcomp, h1, he]
  · intro f hf
    obtain ⟨ht, hty, h0, h1, hid⟩ := parse_session_regcomp_ok_fields sess f hf
    refine ⟨by rw [hty]; exact h0,
            by rw [ht]; exact Nat.pos_of_ne_zero h1, ?_⟩
    intro htriple
    rw [hty] at htriple
    exact hid htriple

/-- Witness for the amended C3: a COOKIE session with no ID is rejected
(third condition), one with ID "(" is rejected through the
regex-compiler condition, and an accepted HEADER session exposes the
guaranteed fields. -/
theorem C3_session_validation_amended_witness :
    (∃ msg, parse_session_regcomp ⟨.SESS_COOKIE, none, 300⟩ = .error msg) ∧
    (∃ msg, parse_session_regcomp ⟨.SESS_COOKIE, some "(", 300⟩ =
      .error msg) ∧
    ((⟨some ⟨"X-ID:[ \t]*", true, true, true⟩,
       some ⟨"([^ \t]*)", true, true, true⟩, 7,
       .SESS_HEADER⟩ : SessionSvcFields).sess_type ≠ .SESS_NONE ∧
     0 < (7 : Nat) ∧ True) :=
  ⟨(C3_session_validation_amended ⟨.SESS_COOKIE, none, 300⟩).1.mpr
      (Or.inr (Or.inr (Or.inl ⟨Or.inl rfl, rfl⟩))),
   (C3_session_validation_amended ⟨.SESS_COOKIE, some "(", 300⟩).1.mpr
      (Or.inr (Or.inr (Or.inr (Or.inl ⟨rfl, by decide⟩)))),
   by
    have h := (C3_session_validation_amended ⟨.SESS_HEADER, some "X-ID", 7⟩).2
      ⟨some ⟨"X-ID:[ \t]*", true, true, true⟩,
       some ⟨"([^ \t]*)", true, true, true⟩, 7, .SESS_HEADER⟩ (by rfl)
    exact ⟨h.1, h.2.1, trivial⟩⟩

/-! ## Boolean values (config.c lines 1070-1098) -/

/-- Handler return codes (config.c lines 887-893). -/
inductive PRes where
  | PARSER_OK
  | PARSER_OK_NONL
  | PARSER_FAIL
  | PARSER_END
  deriving DecidableEq, Repr

/-- Result of a value parser writing through `call_data`: the return
code, the (possibly updated) target field, and the diagnostics the
handler itself emitted. -/
structure AssignOut where
  rc : PRes
  target : Int
  diags : List String
  deriving DecidableEq, Repr

/-- Second diagnostic line of `assign_bool` (config.c lines 1092-1094). -/
def bool_diag_line2 : String :=
  "valid booleans are: 1, yes, true, on for true value, and 0, no, false, off for false value"

/-- `assign_bool` (config.c lines 1070-1098): demands an unquoted token
(`T_UNQ` mask); `strcmp`-compares the lexeme against the two literal
sets; on any other lexeme emits "not a boolean value" plus the list of
valid literals and fails, leaving the target unchanged.  When the token
expectation itself fails the diagnostics were emitted by
`gettkn_expect_mask`, not by `assign_bool`. -/
def assign_bool (g : ScanResult) (target : Int) : AssignOut :=
  match gettkn_expect_mask (some T_UNQ) g with
  | none => ⟨.PARSER_FAIL, target, []⟩
  | some tok =>
      if tok.str = "1" ∨ tok.str = "yes" ∨ tok.str = "true" ∨ tok.str = "on" then
        ⟨.PARSER_OK, 1, []⟩
      else if tok.str = "0" ∨ tok.str = "no" ∨ tok.str = "false" ∨ tok.str = "off" then
        ⟨.PARSER_OK, 0, []⟩
      else
        ⟨.PARSER_FAIL, target, ["not a boolean value", bool_diag_line2]⟩

/-- C4: `assign_bool` demands an unquoted token, maps exactly the
lexemes 1/yes/true/on — case-sensitively — to 1 and exactly
0/no/false/off to 0, and on any other lexeme emits "not a boolean value"
plus a second line listing the accepted literals, fails, and leaves the
target unchanged; a quoted string is rejected by the token expectation. -/
theorem C4_assign_bool_exact (target : Int) :
    (∀ s, s ∈ ["1", "yes", "true", "on"] → ∀ ty, T_UNQ ty = true →
        assign_bool (.tok ⟨ty, s⟩) target = ⟨.PARSER_OK, 1, []⟩) ∧
    (∀ s, s ∈ ["0", "no", "false", "off"] → ∀ ty, T_UNQ ty = true →
        assign_bool (.tok ⟨ty, s⟩) target = ⟨.PARSER_OK, 0, []⟩) ∧
    (∀ s ty, T_UNQ ty = true →
        s ∉ ["1", "yes", "true", "on", "0", "no", "false", "off"] →
        assign_bool (.tok ⟨ty, s⟩) target =
          ⟨.PARSER_FAIL, target, ["not a boolean value", bool_diag_line2]⟩) ∧
    (∀ s, assign_bool (.tok ⟨.string, s⟩) target = ⟨.PARSER_FAIL, target, []⟩) := by
  refine ⟨?_, ?_, ?_, ?_⟩
  · intro s hs ty hty
    fin_cases hs <;> simp [assign_bool, gettkn_expect_mask, hty]
  · intro s hs ty hty
    fin_cases hs <;> simp [assign_bool, gettkn_expect_mask, hty]
  · intro s ty hty hs
    simp only [List.mem_cons, List.not_mem_nil, or_false, not_or] at hs
    obtain ⟨h1, h2, h3, h4, h5, h6, h7, h8⟩ := hs
    simp [assign_bool, gettkn_expect_mask, hty, h1, h2, h3, h4, h5, h6, h7, h8]
  · intro s
    simp [assign_bool, gettkn_expect_mask, T_UNQ]

/-- Witness for C4: the lexeme "maybe" (spec scenario E) fails with both
diagnostic lines and an unchanged target; "on" yields 1; the
capitalised "Yes" is not accepted (case-sensitive comparison). -/
theorem C4_assign_bool_exact_witness :
    assign_bool (.tok ⟨.ident, "maybe"⟩) 7 =
      ⟨.PARSER_FAIL, 7, ["not a boolean value", bool_diag_line2]⟩ ∧
    assign_bool (.tok ⟨.ident, "on"⟩) 7 = ⟨.PARSER_OK, 1, []⟩ ∧
    assign_bool (.tok ⟨.ident, "Yes"⟩) 7 =
      ⟨.PARSER_FAIL, 7, ["not a boolean value", bool_diag_line2]⟩ :=
  ⟨(C4_assign_bool_exact 7).2.2.1 "maybe" .ident (by decide) (by decide),
   (C4_assign_bool_exact 7).1 "on" (by decide) .ident (by decide),
   (C4_assign_bool_exact 7).2.2.1 "Yes" .ident (by decide) (by decide)⟩

/-! ## Protocol-disable bitmask (config.c lines 1651-1687)

The `SSL_OP_NO_*` constants come from the external TLS library's header
`<openssl/ssl.h>`; they are distinct single bits, embedded here with
their OpenSSL 1.0.2 values.  Only their identity as distinct bits
matters for the claim. -/

def SSL_OP_NO_SSLv2 : Nat := 0x01000000
def SSL_OP_NO_SSLv3 : Nat := 0x02000000
def SSL_OP_NO_TLSv1 : Nat := 0x04000000
def SSL_OP_NO_TLSv1_2 : Nat := 0x08000000
def SSL_OP_NO_TLSv1_1 : Nat := 0x10000000

/-- ASCII lower-casing of one character, as `tolower` does. -/
def asciiLower (c : Char) : Char :=
  if 'A' ≤ c ∧ c ≤ 'Z' then Char.ofNat (c.toNat + 32) else c

/-- The C `strcasecmp (a, b) == 0`: ASCII-case-insensitive equality. -/
def strcaseeq (a b : String) : Bool :=
  decide (a.toList.map asciiLower = b.toList.map asciiLower)

/-- `kw_to_tok` (config.c lines 190-200): first table entry whose name
compares equal — with `strcasecmp` when `ci` is set, `strcmp`
otherwise. -/
def kw_to_tok {α : Type} (tab : List (String × α)) (name : String) (ci : Bool) :
    Option α :=
  match tab with
  | [] => none
  | (k, v) :: rest =>
      if cond ci (strcaseeq k name) (decide (k = name)) then some v
      else kw_to_tok rest name ci

/-- The protocol keyword table of `set_proto_opt` (config.c lines
1657-1673): each name maps to the cumulative mask disabling that
protocol and all older ones. -/
def proto_kwtab : List (String × Nat) :=
  [("SSLv2", SSL_OP_NO_SSLv2),
   ("SSLv3", SSL_OP_NO_SSLv2 ||| SSL_OP_NO_SSLv3),
   ("TLSv1", SSL_OP_NO_SSLv2 ||| SSL_OP_NO_SSLv3 ||| SSL_OP_NO_TLSv1),
   ("TLSv1_1", SSL_OP_NO_SSLv2 ||| SSL_OP_NO_SSLv3 |||
               SSL_OP_NO_TLSv1 ||| SSL_OP_NO_TLSv1_1),
   ("TLSv1_2", SSL_OP_NO_SSLv2 ||| SSL_OP_NO_SSLv3 |||
               SSL_OP_NO_TLSv1 ||| SSL_OP_NO_TLSv1_1 |||
               SSL_OP_NO_TLSv1_2)]

/-- `set_proto_opt` (config.c lines 1651-1687): expects an `IDENT`
token, looks it up case-sensitively in the protocol table, and ORs the
cumulative mask into the accumulated option word; fails (leaving the
word unchanged) on any other identifier or token. -/
def set_proto_opt (g : ScanResult) (opt : Nat) : PRes × Nat :=
  match gettkn_expect_mask (some (T_BIT1 .ident)) g with
  | none => (.PARSER_FAIL, opt)
  | some tok =>
      match kw_to_tok proto_kwtab tok.str false with
      | none => (.PARSER_FAIL, opt)
      | some n => (.PARSER_OK, opt ||| n)

/-- C5: `set_proto_opt` maps each accepted protocol name to the
cumulative mask of that protocol and all older ones and ORs it into the
option word; any other identifier fails with the word unchanged; hence
`Disable TLSv1_1` sets the SSLv2, SSLv3, TLSv1 and TLSv1_1 bits
together, and repeated calls accumulate monotonically (no bit is ever
cleared). -/
theorem C5_set_proto_opt_cumulative (opt : Nat) :
    (set_proto_opt (.tok ⟨.ident, "SSLv2"⟩) opt =
      (.PARSER_OK, opt ||| SSL_OP_NO_SSLv2)) ∧
    (set_proto_opt (.tok ⟨.ident, "SSLv3"⟩) opt =
      (.PARSER_OK, opt ||| (SSL_OP_NO_SSLv2 ||| SSL_OP_NO_SSLv3))) ∧
    (set_proto_opt (.tok ⟨.ident, "TLSv1"⟩) opt =
      (.PARSER_OK, opt ||| (SSL_OP_NO_SSLv2 ||| SSL_OP_NO_SSLv3 |||
                            SSL_OP_NO_TLSv1))) ∧
    (set_proto_opt (.tok ⟨.ident, "TLSv1_1"⟩) opt =
      (.PARSER_OK, opt ||| (SSL_OP_NO_SSLv2 ||| SSL_OP_NO_SSLv3 |||
                            SSL_OP_NO_TLSv1 ||| SSL_OP_NO_TLSv1_1))) ∧
    (set_proto_opt (.tok ⟨.ident, "TLSv1_2"⟩) opt =
      (.PARSER_OK, opt ||| (SSL_OP_NO_SSLv2 ||| SSL_OP_NO_SSLv3 |||
                            SSL_OP_NO_TLSv1 ||| SSL_OP_NO_TLSv1_1 |||
                            SSL_OP_NO_TLSv1_2))) ∧
    (∀ s, s ∉ ["SSLv2", "SSLv3", "TLSv1", "TLSv1_1", "TLSv1_2"] →
        set_proto_opt (.tok ⟨.ident, s⟩) opt = (.PARSER_FAIL, opt)) ∧
    (∀ t, t.type ≠ .ident → set_proto_opt (.tok t) opt = (.PARSER_FAIL, opt)) ∧
    (∀ g i, opt.testBit i → (set_proto_opt g opt).2.testBit i) := by
  refine ⟨rfl, rfl, rfl, rfl, rfl, ?_, ?_, ?_⟩
  · intro s hs
    simp only [List.mem_cons, List.not_mem_nil, or_false, not_or] at hs
    obtain ⟨h1, h2, h3, h4, h5⟩ := hs
    simp [set_proto_opt, gettkn_expect_mask, T_BIT1, kw_to_tok, proto_kwtab,
          Ne.symm h1, Ne.symm h2, Ne.symm h3, Ne.symm h4, Ne.symm h5]
  · intro t ht
    simp [set_proto_opt, gettkn_expect_mask, T_BIT1, ht]
  · intro g i hbit
    rcases g with _ | _ | t
    · simpa [set_proto_opt, gettkn_expect_mask] using hbit
    · simpa [set_proto_opt, gettkn_expect_mask] using hbit
    · by_cases ht : T_BIT1 .ident t.type
      · simp only [set_proto_opt, gettkn_expect_mask, ht, if_true]
        rcases hkw : kw_to_tok proto_kwtab t.str false with _ | n
        · simpa using hbit
        · simp [Nat.testBit_or, hbit]
      · simpa [set_proto_opt, gettkn_expect_mask, ht] using hbit

/-- Witness for C5: disabling TLSv1_1 from an empty option word yields
exactly the four cumulative bits, an unknown name and a quoted token
leave the word unchanged, and accumulation after `Disable SSLv2` keeps
the SSLv2 bit set. -/
theorem C5_set_proto_opt_cumulative_witness :
    set_proto_opt (.tok ⟨.ident, "TLSv1_1"⟩) 0 =
      (.PARSER_OK, SSL_OP_NO_SSLv2 ||| SSL_OP_NO_SSLv3 |||
                   SSL_OP_NO_TLSv1 ||| SSL_OP_NO_TLSv1_1) ∧
    set_proto_opt (.tok ⟨.ident, "tlsv1_1"⟩) 5 = (.PARSER_FAIL, 5) ∧
    set_proto_opt (.tok ⟨.string, "TLSv1_1"⟩) 5 = (.PARSER_FAIL, 5) ∧
    (set_proto_opt (.tok ⟨.ident, "TLSv1_2"⟩) SSL_OP_NO_SSLv2).2.testBit 24 := by
  refine ⟨?_, ?_, ?_, ?_⟩
  · have h := (C5_set_proto_opt_cumulative 0).2.2.2.1
    simpa using h
  · exact (C5_set_proto_opt_cumulative 5).2.2.2.2.2.1 "tlsv1_1" (by decide)
  · exact (C5_set_proto_opt_cumulative 5).2.2.2.2.2.2.1 ⟨.string, "TLSv1_1"⟩
      (by decide)
  · exact (C5_set_proto_opt_cumulative SSL_OP_NO_SSLv2).2.2.2.2.2.2.2
      (.tok ⟨.ident, "TLSv1_2"⟩) 24 (by decide)

/-! ## HTTPS listener TLS statement ordering (config.c lines 2674-3155)

The TLS-relevant state of a `ListenHTTPS` section is the per-listener
context list `ctx_head` and the `has_other` flag.  `https_parse_cert`
appends a context unless `has_other` is already set;
`https_parse_client_cert`, `https_parse_ciphers`, `https_parse_calist`,
`https_parse_verifylist` and `https_parse_crlist` each require a
non-empty context list and set `has_other`.  (`https_parse_disable` and
the remaining statements touch neither field.)  External TLS-library
failures abort a statement before it modifies this state and are not
modelled. -/

structure POUND_CTX where
  certPath : String
  deriving DecidableEq, Repr

structure TlsState where
  ctx_head : List POUND_CTX
  has_other : Bool
  deriving DecidableEq, Repr

/-- The statements of the `ListenHTTPS` keyword table, restricted to
their effect on `ctx_head`/`has_other`; `other` covers every statement
that touches neither (Address, Port, Disable, SSLHonorCipherOrder,
Service, ...). -/
inductive HttpsStmt where
  | cert (path : String)
  | clientCert
  | ciphers
  | calist
  | verifyList
  | crlList
  | other
  deriving DecidableEq, Repr

/-- One statement of the `ListenHTTPS` section loop, restricted to the
TLS-relevant state (config.c lines 2674-2763, 2814-2832, 2886-2906,
2954-3048). -/
def https_step (st : TlsState) (stmt : HttpsStmt) : Except String TlsState :=
  match stmt with
  | .cert path =>
      if st.has_other then
        .error "Cert directives MUST precede other SSL-specific directives"
      else .ok { st with ctx_head := st.ctx_head ++ [⟨path⟩] }
  | .clientCert =>
      if st.ctx_head.isEmpty then .error "ClientCert may only be used after Cert"
      else .ok { st with has_other := true }
  | .ciphers =>
      if st.ctx_head.isEmpty then .error "Ciphers may only be used after Cert"
      else .ok { st with has_other := true }
  | .calist =>
      if st.ctx_head.isEmpty then .error "CAList may only be used after Cert"
      else .ok { st with has_other := true }
  | .verifyList =>
      if st.ctx_head.isEmpty then .error "VerifyList may only be used after Cert"
      else .ok { st with has_other := true }
  | .crlList =>
      if st.ctx_head.isEmpty then .error "CRlist may only be used after Cert"
      else .ok { st with has_other := true }
  | .other => .ok st

/-- The statement loop of `parse_listen_https`, restricted to the
TLS-relevant state. -/
def https_run (stmts : List HttpsStmt) (st : TlsState) : Except String TlsState :=
  match stmts with
  | [] => .ok st
  | s :: rest =>
      match https_step st s with
      | .error e => .error e
      | .ok st' => https_run rest st'

/-- Tail of `parse_listen_https` (config.c lines 3112-3122): run the
section statements from the fresh listener state, then reject a section
whose context list is still empty. -/
def parse_listen_https_tls (stmts : List HttpsStmt) : Except String (List POUND_CTX) :=
  match https_run stmts ⟨[], false⟩ with
  | .error e => .error e
  | .ok st =>
      if st.ctx_head.isEmpty then .error "Cert statement is missing"
      else .ok st.ctx_head

theorem https_run_no_cert (stmts : List HttpsStmt)
    (hnc : ∀ p, HttpsStmt.cert p ∉ stmts) :
    ∀ st st', st.ctx_head = [] → https_run stmts st = .ok st' →
      st'.ctx_head = [] := by
  induction stmts with
  | nil => intro st st' he h; cases h; exact he
  | cons s rest ih =>
      intro st st' he h
      have hs : ∀ p, HttpsStmt.cert p ∉ rest := fun p hp =>
        hnc p (List.mem_cons_of_mem _ hp)
      cases s with
      | cert p => exact absurd (List.mem_cons_self _ _) (hnc p)
      | other =>
          simp only [https_run, https_step] at h
          exact ih hs st st' he h
      | clientCert => simp [https_run, https_step, List.isEmpty_iff, he] at h
      | ciphers => simp [https_run, https_step, List.isEmpty_iff, he] at h
      | calist => simp [https_run, https_step, List.isEmpty_iff, he] at h
      | verifyList => simp [https_run, https_step, List.isEmpty_iff, he] at h
      | crlList => simp [https_run, https_step, List.isEmpty_iff, he] at h

/-- C6: every accepted `ListenHTTPS` section has a non-empty context
list (a section without any `Cert` is rejected — with the "Cert
statement is missing" diagnostic when its statements all parse); a
`Cert` statement is rejected once `has_other` is set; each of
`ClientCert`, `Ciphers`, `CAlist`, `VerifyList` and `CRLlist` is
rejected while the context list is empty, and each of them sets
`has_other`, which no statement ever clears — so after any of the
five, every subsequent `Cert` is rejected. -/
theorem C6_https_cert_ordering :
    (∀ stmts ctxs, parse_listen_https_tls stmts = .ok ctxs → ctxs ≠ []) ∧
    (∀ stmts, (∀ p, HttpsStmt.cert p ∉ stmts) →
        ∀ ctxs, parse_listen_https_tls stmts ≠ .ok ctxs) ∧
    (∀ st path, st.has_other = true →
        https_step st (.cert path) =
          .error "Cert directives MUST precede other SSL-specific directives") ∧
    (∀ st stmt, st.ctx_head = [] →
        stmt ∈ [HttpsStmt.clientCert, .ciphers, .calist, .verifyList, .crlList] →
        ∃ e, https_step st stmt = .error e) ∧
    (∀ st stmt st', https_step st stmt = .ok st' →
        stmt ∈ [HttpsStmt.clientCert, .ciphers, .calist, .verifyList, .crlList] →
        st'.has_other = true) ∧
    (∀ st stmt st', https_step st stmt = .ok st' →
        st.has_other = true → st'.has_other = true) := by
  refine ⟨?_, ?_, ?_, ?_, ?_, ?_⟩
  · intro stmts ctxs h
    simp only [parse_listen_https_tls] at h
    rcases hr : https_run stmts ⟨[], false⟩ with e | st
    · simp [hr] at h
    · rcases he : st.ctx_head.isEmpty with _ | _
      · simp only [hr, he, if_false, Bool.false_eq_true] at h
        cases h
        simpa [List.isEmpty_iff] using he
      · simp [hr, he] at h
  · intro stmts hnc ctxs h
    simp only [parse_listen_https_tls] at h
    rcases hr : https_run stmts ⟨[], false⟩ with e | st
    · simp [hr] at h
    · have : st.ctx_head = [] := https_run_no_cert stmts hnc _ st rfl hr
      simp [hr, this] at h
  · intro st path h
    simp [https_step, h]
  · intro st stmt he hm
    have hie : st.ctx_head.isEmpty = true := by simp [he]
    fin_cases hm
    · exact ⟨"ClientCert may only be used after Cert", by simp [https_step, hie]⟩
    · exact ⟨"Ciphers may only be used after Cert", by simp [https_step, hie]⟩
    · exact ⟨"CAList may only be used after Cert", by simp [https_step, hie]⟩
    · exact ⟨"VerifyList may only be used after Cert", by simp [https_step, hie]⟩
    · exact ⟨"CRlist may only be used after Cert", by simp [https_step, hie]⟩
  · intro st stmt st' h hm
    fin_cases hm <;>
      (simp only [https_step] at h; split at h <;> (cases h; try rfl))
  · intro st stmt st' h ho
    cases stmt <;> first
      | (simp only [https_step] at h; split at h <;> cases h <;> simp [ho])
      | (simp only [https_step] at h; cases h; simp [ho])

/-- Witness for C6: a section with Cert then Ciphers is accepted with one
context; Ciphers before any Cert is rejected; Cert after Ciphers is
rejected; a section with no Cert at all is rejected. -/
theorem C6_https_cert_ordering_witness :
    ([⟨"a.pem"⟩] : List POUND_CTX) ≠ [] ∧
    (∃ e, https_step ⟨[], false⟩ .ciphers = .error e) ∧
    https_step ⟨[⟨"a.pem"⟩], true⟩ (.cert "b.pem") =
      .error "Cert directives MUST precede other SSL-specific directives" ∧
    parse_listen_https_tls [.other, .other] ≠ .ok [⟨"a.pem"⟩] :=
  ⟨C6_https_cert_ordering.1 [.cert "a.pem", .ciphers] [⟨"a.pem"⟩] (by rfl),
   C6_https_cert_ordering.2.2.2.1 ⟨[], false⟩ .ciphers rfl (by decide),
   C6_https_cert_ordering.2.2.1 ⟨[⟨"a.pem"⟩], true⟩ "b.pem" rfl,
   C6_https_cert_ordering.2.1 [.other, .other]
      (by intro p hp; simp at hp) [⟨"a.pem"⟩]⟩

/-! ## Redirect backends (config.c lines 1897-1951) -/

/-- Backend kinds (`BE_BACKEND`, `BE_REDIRECT`, `BE_ACME`). -/
inductive BeType where
  | BE_BACKEND
  | BE_REDIRECT
  | BE_ACME
  deriving DecidableEq, Repr

/-- The fields of `BACKEND` (declared in pound.h) that `config.c` writes
and that the checked claims mention.  `XZALLOC` zero-fills, so `disabled`
starts false. -/
structure BACKEND where
  be_type : BeType
  redir_code : Int
  priority : Int
  alive : Bool
  disabled : Bool
  url : String
  redir_req : Int
  deriving DecidableEq, Repr

/-- The C `atoi`, as applied to a `T_NUMBER` lexeme (a run of decimal
digits). -/
def atoi (s : String) : Int :=
  (s.toList.foldl (fun n c => n * 10 + (c.toNat - 48)) 0 : Nat)

/-- Case-insensitive fixed-prefix test (pattern given in lower case). -/
def ci_starts_with : List Char → List Char → Bool
  | [], _ => true
  | _ :: _, [] => false
  | p :: ps, c :: cs => decide (asciiLower c = p) && ci_starts_with ps cs

/-- Modelled from the spec: the global `LOCATION` regular expression is
compiled in repository code outside src/ ("The URL is validated against
a scheme/host/path regex"; "Redirect URL must match a fixed
scheme://host[:port]/path grammar").  It matches
`^(http|https)://([^/]+)(.*)` case-insensitively: the host is the
maximal non-empty run of non-'/' characters after the scheme, the path
is the remainder.  The result is the offset of subexpression 3 (the
path, `rm_so` of `matches[3]`) and the path characters. -/
def location_tail (scheme_len : Nat) (cs : List Char) : Option (Nat × List Char) :=
  let rest := cs.drop scheme_len
  let host := rest.takeWhile (fun c => !decide (c = '/'))
  if host.isEmpty then none
  else some (scheme_len + host.length,
             rest.dropWhile (fun c => !decide (c = '/')))

def location_match (url : String) : Option (Nat × List Char) :=
  let cs := url.toList
  if ci_starts_with ("https://".toList) cs then location_tail 8 cs
  else if ci_starts_with ("http://".toList) cs then location_tail 7 cs
  else none

theorem dropWhile_head_not (p : Char → Bool) :
    ∀ (l : List Char) c t, l.dropWhile p = c :: t → p c = false := by
  intro l
  induction l with
  | nil => intro c t h; cases h
  | cons d t' ih =>
      intro c t h
      by_cases hd : p d
      · exact ih c t (by simpa [List.dropWhile, hd] using h)
      · simp only [List.dropWhile, hd, if_neg] at h
        cases h
        simpa using hd

theorem location_tail_single_slash (k : Nat) (cs : List Char)
    (pstart : Nat) (path : List Char)
    (h : location_tail k cs = some (pstart, path)) (hlen : path.length = 1) :
    path = ['/'] := by
  simp only [location_tail] at h
  split at h
  · cases h
  · cases h
    rcases hp : (cs.drop k).dropWhile (fun c => !decide (c = '/'))
      with _ | ⟨c, t⟩
    · rw [hp] at hlen; cases hlen
    · rw [hp] at hlen
      have hc := dropWhile_head_not _ _ c t hp
      have hcs : c = '/' := by simpa using hc
      subst hcs
      simp only [List.length_cons, Nat.add_left_eq_self,
                 List.length_eq_zero] at hlen
      simp [hlen]

/-- `assign_redirect` (config.c lines 1897-1951): optional `T_NUMBER`
status code restricted to 301/302/307 (default 302), then a `T_STRING`
URL that must match `LOCATION`; a length-one path (`matches[3]`) is
stripped from the stored URL by writing a NUL at its start; the backend
is `BE_REDIRECT`, priority 1, alive, and `redir_req` holds the path
length.  `g1` and `g2` are the outcomes of the (up to) two `gettkn_any`
calls. -/
def assign_redirect (g1 g2 : ScanResult) : Except String BACKEND :=
  match gettkn_expect_mask none g1 with
  | none => .error "unexpected end of file"
  | some tok1 =>
      let codeTok : Except String (Int × Token) :=
        if tok1.type = .number then
          let n := atoi tok1.str
          if n = 301 ∨ n = 302 ∨ n = 307 then
            match gettkn_expect_mask none g2 with
            | none => .error "unexpected end of file"
            | some tok2 => .ok (n, tok2)
          else .error "invalid status code"
        else .ok (302, tok1)
      match codeTok with
      | .error e => .error e
      | .ok (code, tok) =>
          if tok.type = .string then
            match location_match tok.str with
            | none => .error "Redirect bad URL"
            | some (pstart, path) =>
                .ok { be_type := .BE_REDIRECT
                      redir_code := code
                      priority := 1
                      alive := true
                      disabled := false
                      url := if path.length = 1 then
                               String.mk (tok.str.toList.take pstart)
                             else tok.str
                      redir_req := path.length }
          else .error "expected quoted string"

/-- C7: the optional numeric status code must be 301, 302 or 307 (other
values fail with "invalid status code") and defaults to 302; the quoted
URL must match the scheme/host/path regex (else "Redirect bad URL"); a
length-one matched path is necessarily the single character '/' and is
stripped from the stored URL; the produced backend has kind
`BE_REDIRECT`, priority 1, and is alive. -/
theorem C7_assign_redirect_behavior :
    (∀ s g2, ¬(atoi s = 301 ∨ atoi s = 302 ∨ atoi s = 307) →
        assign_redirect (.tok ⟨.number, s⟩) g2 = .error "invalid status code") ∧
    (∀ url pstart path, location_match url = some (pstart, path) →
        assign_redirect (.tok ⟨.string, url⟩) .eof =
          .ok ⟨.BE_REDIRECT, 302, 1, true, false,
               if path.length = 1 then String.mk (url.toList.take pstart)
               else url,
               path.length⟩) ∧
    (∀ s url pstart path, (atoi s = 301 ∨ atoi s = 302 ∨ atoi s = 307) →
        location_match url = some (pstart, path) →
        assign_redirect (.tok ⟨.number, s⟩) (.tok ⟨.string, url⟩) =
          .ok ⟨.BE_REDIRECT, atoi s, 1, true, false,
               if path.length = 1 then String.mk (url.toList.take pstart)
               else url,
               path.length⟩) ∧
    (∀ url g2, location_match url = none →
        assign_redirect (.tok ⟨.string, url⟩) g2 = .error "Redirect bad URL") ∧
    (∀ url pstart path, location_match url = some (pstart, path) →
        path.length = 1 → path = ['/']) := by
  refine ⟨?_, ?_, ?_, ?_, ?_⟩
  · intro s g2 h
    simp [assign_redirect, gettkn_expect_mask, h]
  · intro url pstart path h
    simp [assign_redirect, gettkn_expect_mask, h]
  · intro s url pstart path hc h
    simp [assign_redirect, gettkn_expect_mask, h, hc]
  · intro url g2 h
    simp [assign_redirect, gettkn_expect_mask, h]
  · intro url pstart path h hlen
    simp only [location_match] at h
    by_cases h8 : ci_starts_with ("https://".toList) url.toList = true
    · rw [if_pos h8] at h
      exact location_tail_single_slash 8 _ _ _ h hlen
    · rw [if_neg h8] at h
      by_cases h7 : ci_starts_with ("http://".toList) url.toList = true
      · rw [if_pos h7] at h
        exact location_tail_single_slash 7 _ _ _ h hlen
      · rw [if_neg h7] at h
        cases h

/-- Witness for C7 at the spec's scenario C: `Redirect 307
"https://example.org/"` yields a REDIRECT backend with code 307 and the
trailing '/' removed, and code 308 is rejected. -/
theorem C7_assign_redirect_behavior_witness :
    assign_redirect (.tok ⟨.number, "307"⟩)
        (.tok ⟨.string, "https://example.org/"⟩) =
      .ok ⟨.BE_REDIRECT, 307, 1, true, false, "https://example.org", 1⟩ ∧
    assign_redirect (.tok ⟨.number, "308"⟩)
        (.tok ⟨.string, "https://example.org/"⟩) =
      .error "invalid status code" := by
  constructor
  · have h := C7_assign_redirect_behavior.2.2.1 "307" "https://example.org/"
      19 ['/'] (by decide) (by decide)
    have e1 : atoi "307" = 307 := by decide
    have e2 : (if (['/'] : List Char).length = 1 then
        String.mk ("https://example.org/".toList.take 19)
      else "https://example.org/") = "https://example.org" := by decide
    rw [e1, e2] at h
    exact h
  · exact C7_assign_redirect_behavior.1 "308" _ (by decide)

/-! ## Service priority aggregation (config.c lines 2181-2193) -/

/-- The aggregation loop of `parse_service` (config.c lines 2187-2192):
`tot_pri` accumulates the priorities of backends whose `disabled` flag is
unset, `abs_pri` the priorities of all backends.  (When the backend list
is empty the loop does not run and both stay 0.) -/
def service_pri_loop (bes : List BACKEND) (tot_pri abs_pri : Int) : Int × Int :=
  match bes with
  | [] => (tot_pri, abs_pri)
  | be :: rest =>
      service_pri_loop rest
        (if be.disabled then tot_pri else tot_pri + be.priority)
        (abs_pri + be.priority)

/-- `tot_pri` and `abs_pri` of a freshly built service (`XZALLOC` zeroes
both before the loop). -/
def service_pri (bes : List BACKEND) : Int × Int :=
  service_pri_loop bes 0 0

theorem service_pri_loop_spec (bes : List BACKEND) :
    ∀ t a, service_pri_loop bes t a =
      (t + ((bes.filter fun be => !be.disabled).map fun be => be.priority).sum,
       a + (bes.map fun be => be.priority).sum) := by
  induction bes with
  | nil => intro t a; simp [service_pri_loop]
  | cons be rest ih =>
      intro t a
      rw [service_pri_loop, ih]
      by_cases hd : be.disabled <;>
        simp [hd, List.filter_cons, add_assoc]

theorem filtered_pri_sum_le (bes : List BACKEND)
    (h : ∀ be ∈ bes, 0 ≤ be.priority) :
    ((bes.filter fun be => !be.disabled).map fun be => be.priority).sum ≤
      (bes.map fun be => be.priority).sum := by
  induction bes with
  | nil => exact le_rfl
  | cons be rest ih =>
      have hb := h be (List.mem_cons_self _ _)
      have hr : ∀ b ∈ rest, 0 ≤ b.priority := fun b hb' =>
        h b (List.mem_cons_of_mem _ hb')
      by_cases hd : be.disabled <;> simp [hd] <;> linarith [ih hr]

theorem filtered_pri_sum_pos (bes : List BACKEND) :
    0 < ((bes.filter fun be => !be.disabled).map fun be => be.priority).sum →
      ∃ be ∈ bes, be.disabled = false ∧ 0 < be.priority := by
  induction bes with
  | nil => simp
  | cons be rest ih =>
      intro hpos
      by_cases hd : be.disabled
      · simp only [List.filter_cons] at hpos
        rw [hd] at hpos
        simp only [Bool.not_true, Bool.false_eq_true, if_false] at hpos
        obtain ⟨b, hb, hprop⟩ := ih hpos
        exact ⟨b, List.mem_cons_of_mem _ hb, hprop⟩
      · have hdf : be.disabled = false := by simpa using hd
        by_cases hp : 0 < be.priority
        · exact ⟨be, List.mem_cons_self _ _, hdf, hp⟩
        · simp only [List.filter_cons] at hpos
          rw [hdf] at hpos
          simp only [Bool.not_false, if_true, List.map_cons,
                     List.sum_cons] at hpos
          have hrest : 0 < ((rest.filter fun b => !b.disabled).map
              fun b => b.priority).sum := by
            push_neg at hp
            omega
          obtain ⟨b, hb, hprop⟩ := ih hrest
          exact ⟨b, List.mem_cons_of_mem _ hb, hprop⟩

/-- C8: for every service accepted by `parse_service`, `abs_pri` is the
sum of the priorities of all its backends and `tot_pri` the sum over the
backends whose `disabled` flag is unset; hence `tot_pri ≤ abs_pri`
(priorities being non-negative, as every parsed backend's are), and
`tot_pri > 0` implies some non-disabled backend has positive priority. -/
theorem C8_service_priority_aggregation (bes : List BACKEND)
    (h : ∀ be ∈ bes, 0 ≤ be.priority) :
    (service_pri bes).1 =
      ((bes.filter fun be => !be.disabled).map fun be => be.priority).sum ∧
    (service_pri bes).2 = (bes.map fun be => be.priority).sum ∧
    (service_pri bes).1 ≤ (service_pri bes).2 ∧
    (0 < (service_pri bes).1 →
      ∃ be ∈ bes, be.disabled = false ∧ 0 < be.priority) := by
  have hs := service_pri_loop_spec bes 0 0
  have h1 : (service_pri bes).1 =
      ((bes.filter fun be => !be.disabled).map fun be => be.priority).sum := by
    simp [service_pri, hs]
  have h2 : (service_pri bes).2 = (bes.map fun be => be.priority).sum := by
    simp [service_pri, hs]
  refine ⟨h1, h2, ?_, ?_⟩
  · rw [h1, h2]; exact filtered_pri_sum_le bes h
  · intro hpos
    rw [h1] at hpos
    exact filtered_pri_sum_pos bes hpos

/-- Witness for C8: two enabled backends of priorities 5 and 2 plus a
disabled backend of priority 9 give `tot_pri = 7` and `abs_pri = 16`,
with `tot_pri ≤ abs_pri` and a positive-priority enabled backend. -/
theorem C8_service_priority_aggregation_witness :
    (service_pri
        [⟨.BE_BACKEND, 0, 5, true, false, "", 0⟩,
         ⟨.BE_BACKEND, 0, 9, true, true, "", 0⟩,
         ⟨.BE_BACKEND, 0, 2, true, false, "", 0⟩]).1 = 7 ∧
    (service_pri
        [⟨.BE_BACKEND, 0, 5, true, false, "", 0⟩,
         ⟨.BE_BACKEND, 0, 9, true, true, "", 0⟩,
         ⟨.BE_BACKEND, 0, 2, true, false, "", 0⟩]).2 = 16 ∧
    ∃ be ∈ [(⟨.BE_BACKEND, 0, 5, true, false, "", 0⟩ : BACKEND),
            ⟨.BE_BACKEND, 0, 9, true, true, "", 0⟩,
            ⟨.BE_BACKEND, 0, 2, true, false, "", 0⟩],
      be.disabled = false ∧ 0 < be.priority := by
  have h := C8_service_priority_aggregation
    [⟨.BE_BACKEND, 0, 5, true, false, "", 0⟩,
     ⟨.BE_BACKEND, 0, 9, true, true, "", 0⟩,
     ⟨.BE_BACKEND, 0, 2, true, false, "", 0⟩]
    (by intro be hbe; fin_cases hbe <;> decide)
  refine ⟨by rw [h.1]; decide, by rw [h.2.1]; decide, ?_⟩
  exact h.2.2.2 (by rw [h.1]; decide)

/-! ## Backend addresses (config.c lines 1249-1297, 1313-1389, 1783-1829)

`struct addrinfo` restricted to the fields `config.c` reads and writes;
the two `ai_flags` bits `AI_NUMERICHOST`/`AI_NUMERICSERV` that mark an
initialized address and port are modelled as the Booleans `hasAddress`
and `hasPort` (`ADDRINFO_SET_ADDRESS` assigns the whole flag word, so it
clears `hasPort`). -/

inductive AiFamily where
  | AF_UNSPEC
  | AF_INET
  | AF_INET6
  | AF_UNIX
  deriving DecidableEq, Repr

def SOCK_STREAM : Nat := 1

structure AddrInfo where
  ai_family : AiFamily := .AF_UNSPEC
  ai_socktype : Nat := 0
  ai_protocol : Nat := 0
  hasAddress : Bool := false
  hasPort : Bool := false
  deriving DecidableEq, Repr

/-- Modelled from the spec: `get_host` lives in repository code outside
src/ ("attempts hostname/IP resolution (first address returned)"; the
data model says a resolved address "Carries address family (INET, INET6,
UNIX), socket type STREAM, protocol").  The resolver outcome is the
parameter `res`: `none` is resolution failure; on success the first
returned address carries its family and protocol and socket type
STREAM. -/
structure ResolvedHost where
  family : AiFamily
  protocol : Nat
  deriving DecidableEq, Repr

def get_host (res : Option ResolvedHost) (addr : AddrInfo) : Option AddrInfo :=
  match res with
  | none => none
  | some r =>
      some { addr with ai_family := r.family,
                       ai_socktype := SOCK_STREAM,
                       ai_protocol := r.protocol }

def UNIX_PATH_MAX : Nat := 108

/-- `assign_address_internal` (config.c lines 1259-1297): demands an
IDENT/LITERAL/STRING token; tries host resolution, falling back to a
UNIX-domain socket path (bounded by `UNIX_PATH_MAX`) with family
`AF_UNIX` and socket type `SOCK_STREAM`; finally `ADDRINFO_SET_ADDRESS`
overwrites `ai_flags`, setting the has-address bit and clearing the
has-port bit. -/
def assign_address_internal (res : Option ResolvedHost) (addr : AddrInfo)
    (tok : Option Token) : Except String AddrInfo :=
  match tok with
  | none => .error "expected token"
  | some tok =>
      if tok.type ≠ .ident ∧ tok.type ≠ .literal ∧ tok.type ≠ .string then
        .error "expected hostname or IP address"
      else
        match get_host res addr with
        | some addr' => .ok { addr' with hasAddress := true, hasPort := false }
        | none =>
            if UNIX_PATH_MAX < tok.str.length then
              .error "UNIX path name too long"
            else
              .ok { addr with ai_family := .AF_UNIX,
                              ai_socktype := SOCK_STREAM,
                              ai_protocol := 0,
                              hasAddress := true, hasPort := false }

/-- `assign_port_internal` (config.c lines 1313-1370): demands an
IDENT/NUMBER token, requires an INET/INET6 family, resolves the service
name/number (`portRes` models the `getaddrinfo` outcome), writes the
port into the existing sockaddr and ORs in the has-port bit. -/
def assign_port_internal (portRes : Bool) (addr : AddrInfo)
    (tok : Option Token) : Except String AddrInfo :=
  match tok with
  | none => .error "expected token"
  | some tok =>
      if tok.type ≠ .ident ∧ tok.type ≠ .number then
        .error "expected port number or service name"
      else if ¬(addr.ai_family = .AF_INET ∨ addr.ai_family = .AF_INET6) then
        .error "Port is not applicable to this address family"
      else if portRes = false then .error "bad port number"
      else .ok { addr with hasPort := true }

/-- The statements of a `Backend`/`Emergency` section (both keyword
tables bind `Address` and `Port` to the same handlers and offset
`offsetof (BACKEND, addr)`), restricted to their effect on `be->addr`;
`otherStmt` covers Priority, TimeOut, WSTimeOut, ConnTO, HAport, HTTPS,
Cert, Ciphers and Disable, none of which touches `be->addr`. -/
inductive BackendStmt where
  | address (tok : Option Token) (res : Option ResolvedHost)
  | port (tok : Option Token) (res : Bool)
  | otherStmt
  deriving DecidableEq, Repr

/-- One statement of the backend section loop: `assign_address` (config.c
lines 1299-1311) rejects a duplicate Address, `assign_port` (lines
1372-1389) rejects a duplicate Port and a Port before any Address. -/
def backend_addr_step (addr : AddrInfo) (s : BackendStmt) :
    Except String AddrInfo :=
  match s with
  | .address tok res =>
      if addr.hasAddress then .error "Duplicate Address statement"
      else assign_address_internal res addr tok
  | .port tok res =>
      if addr.hasPort then .error "Duplicate port statement"
      else if ¬ addr.hasAddress then
        .error "Address statement should precede Port"
      else assign_port_internal res addr tok
  | .otherStmt => .ok addr

def backend_addr_run (stmts : List BackendStmt) (addr : AddrInfo) :
    Except String AddrInfo :=
  match stmts with
  | [] => .ok addr
  | s :: rest =>
      match backend_addr_step addr s with
      | .error e => .error e
      | .ok addr' => backend_addr_run rest addr'

/-- `check_addrinfo` (config.c lines 1783-1801). -/
def check_addrinfo (addr : AddrInfo) : Except String Unit :=
  if addr.hasAddress then
    if ¬ addr.hasPort ∧
        (addr.ai_family = .AF_INET ∨ addr.ai_family = .AF_INET6) then
      .error "missing Port declaration"
    else .ok ()
  else .error "missing Address declaration"

/-- `parse_backend_internal` (config.c lines 1803-1829), restricted to
`be->addr`: the struct is zero-filled (the `SOCK_STREAM` stored at line
1811 is wiped again by the `memset` of `be->addr` at line 1816, so the
initial socket type is 0), the section statements run, and
`check_addrinfo` validates the result. -/
def parse_backend_addr (stmts : List BackendStmt) : Except String AddrInfo :=
  match backend_addr_run stmts {} with
  | .error e => .error e
  | .ok addr =>
      match check_addrinfo addr with
      | .error e => .error e
      | .ok _ => .ok addr

theorem assign_address_internal_stream (res : Option ResolvedHost)
    (addr : AddrInfo) (tok : Option Token) (addr' : AddrInfo)
    (h : assign_address_internal res addr tok = .ok addr') :
    addr'.ai_socktype = SOCK_STREAM ∧ addr'.hasAddress = true := by
  rcases tok with _ | tok
  · cases h
  · simp only [assign_address_internal] at h
    by_cases hty : tok.type ≠ .ident ∧ tok.type ≠ .literal ∧ tok.type ≠ .string
    · rw [if_pos hty] at h; cases h
    · rw [if_neg hty] at h
      rcases res with _ | r
      · simp only [get_host] at h
        by_cases hlen : UNIX_PATH_MAX < tok.str.length
        · rw [if_pos hlen] at h; cases h
        · rw [if_neg hlen] at h; cases h; exact ⟨rfl, rfl⟩
      · simp only [get_host] at h
        cases h; exact ⟨rfl, rfl⟩

theorem assign_port_internal_fields (portRes : Bool) (addr : AddrInfo)
    (tok : Option Token) (addr' : AddrInfo)
    (h : assign_port_internal portRes addr tok = .ok addr') :
    addr' = { addr with hasPort := true } := by
  rcases tok with _ | tok
  · cases h
  · simp only [assign_port_internal] at h
    by_cases h1 : tok.type ≠ .ident ∧ tok.type ≠ .number
    · rw [if_pos h1] at h; cases h
    · rw [if_neg h1] at h
      by_cases h2 : ¬(addr.ai_family = .AF_INET ∨ addr.ai_family = .AF_INET6)
      · rw [if_pos h2] at h; cases h
      · rw [if_neg h2] at h
        by_cases h3 : portRes = false
        · rw [if_pos h3] at h; cases h
        · rw [if_neg h3] at h; cases h; rfl

theorem backend_addr_step_inv (addr : AddrInfo) (s : BackendStmt)
    (addr' : AddrInfo) (h : backend_addr_step addr s = .ok addr')
    (hinv : addr.hasAddress = true → addr.ai_socktype = SOCK_STREAM) :
    addr'.hasAddress = true → addr'.ai_socktype = SOCK_STREAM := by
  cases s with
  | address tok res =>
      simp only [backend_addr_step] at h
      by_cases hd : addr.hasAddress = true
      · rw [if_pos hd] at h; cases h
      · rw [if_neg hd] at h
        intro _
        exact (assign_address_internal_stream res addr tok addr' h).1
  | port tok res =>
      simp only [backend_addr_step] at h
      by_cases hd : addr.hasPort = true
      · rw [if_pos hd] at h; cases h
      · rw [if_neg hd] at h
        by_cases hna : ¬ addr.hasAddress = true
        · rw [if_pos hna] at h; cases h
        · rw [if_neg hna] at h
          have he := assign_port_internal_fields res addr tok addr' h
          subst he
          intro ha
          exact hinv ha
  | otherStmt =>
      simp only [backend_addr_step] at h
      cases h
      exact hinv

theorem backend_addr_run_inv (stmts : List BackendStmt) :
    ∀ addr addr', backend_addr_run stmts addr = .ok addr' →
      (addr.hasAddress = true → addr.ai_socktype = SOCK_STREAM) →
      (addr'.hasAddress = true → addr'.ai_socktype = SOCK_STREAM) := by
  induction stmts with
  | nil => intro addr addr' h hinv; cases h; exact hinv
  | cons s rest ih =>
      intro addr addr' h hinv
      simp only [backend_addr_run] at h
      rcases hs : backend_addr_step addr s with e | a
      · rw [hs] at h; cases h
      · rw [hs] at h
        exact ih a addr' h (backend_addr_step_inv addr s a hs hinv)

/-- C9: every backend address produced by an accepted `Backend` or
`Emergency` section has socket type `SOCK_STREAM`, whether the address
resolved as a host/IP or fell back to a UNIX-domain path (and the
accepted address always has its has-address flag set). -/
theorem C9_backend_socktype_stream (stmts : List BackendStmt)
    (addr : AddrInfo) (h : parse_backend_addr stmts = .ok addr) :
    addr.ai_socktype = SOCK_STREAM ∧ addr.hasAddress = true := by
  simp only [parse_backend_addr] at h
  rcases hr : backend_addr_run stmts {} with e | a
  · simp [hr] at h
  · simp only [hr] at h
    rcases hc : check_addrinfo a with e | u
    · simp [hc] at h
    · simp only [hc] at h
      have ha : a = addr := by simpa using h
      subst ha
      have haddr : a.hasAddress = true := by
        by_contra hna
        simp only [Bool.not_eq_true] at hna
        simp [check_addrinfo, hna] at hc
      exact ⟨backend_addr_run_inv stmts {} a hr (by intro h0; cases h0) haddr,
             haddr⟩

/-- Witness for C9: a backend whose Address resolves as INET and whose
Port resolves, and one whose Address falls back to a UNIX path, both
yield socket type STREAM. -/
theorem C9_backend_socktype_stream_witness :
    (∀ addr, parse_backend_addr
        [.address (some ⟨.literal, "127.0.0.1"⟩) (some ⟨.AF_INET, 6⟩),
         .port (some ⟨.number, "9000"⟩) true] = .ok addr →
        addr.ai_socktype = SOCK_STREAM) ∧
    parse_backend_addr
        [.address (some ⟨.literal, "/run/pound.sock"⟩) none]
      = .ok ⟨.AF_UNIX, SOCK_STREAM, 0, true, false⟩ ∧
    (⟨.AF_UNIX, SOCK_STREAM, 0, true, false⟩ : AddrInfo).ai_socktype =
      SOCK_STREAM :=
  ⟨fun addr h => (C9_backend_socktype_stream _ addr h).1,
   by rfl,
   (C9_backend_socktype_stream
      [.address (some ⟨.literal, "/run/pound.sock"⟩) none]
      ⟨.AF_UNIX, SOCK_STREAM, 0, true, false⟩ (by rfl)).1⟩

/-! ## Log facility (config.c lines 1183-1227)

The `LOG_*` facility constants come from the external `<syslog.h>`;
their conventional Linux values are embedded. -/

def facility_table : List (String × Int) :=
  [("auth", 32), ("authpriv", 80), ("cron", 72), ("daemon", 24),
   ("ftp", 88), ("kern", 0), ("lpr", 48), ("mail", 16), ("news", 56),
   ("syslog", 40), ("user", 8), ("uucp", 64),
   ("local0", 128), ("local1", 136), ("local2", 144), ("local3", 152),
   ("local4", 160), ("local5", 168), ("local6", 176), ("local7", 184)]

/-- Outcome of running a C function that may crash: a normal value, a
reported failure, or an undefined-behavior null-pointer dereference. -/
inductive CStep (α : Type) where
  | ok (a : α)
  | fail
  | nullDeref
  deriving DecidableEq, Repr

/-- `assign_log_facility` (config.c lines 1211-1227), exactly as
written: the result of `gettkn_expect_mask (T_UNQ)` is passed to
`strcmp (tok->str, "-")` with **no** null check (unlike every other
`assign_*` handler), so when the expectation fails — end of file, a scan
error, or a token outside `T_UNQ` — the null token pointer is
dereferenced; this is the `nullDeref` outcome.  Otherwise `-` maps to
-1, the facility table is searched case-insensitively, and an unknown
name fails. -/
def assign_log_facility (g : ScanResult) : CStep Int :=
  match gettkn_expect_mask (some T_UNQ) g with
  | none => .nullDeref
  | some tok =>
      if tok.str = "-" then .ok (-1)
      else
        match kw_to_tok facility_table tok.str true with
        | none => .fail
        | some n => .ok n

/-- C10: contrary to the claim, `assign_log_facility` does dereference
the null token pointer returned by `gettkn_expect_mask` when the
`LogFacility` statement is followed by end of file, a lexing error, or a
token that is not an unquoted word (a quoted string or a newline); a
valid unquoted facility name is looked up normally.  The claim describes
the intended behavior (every sibling `assign_*` handler checks for the
null pointer); the code lacks the check. -/
theorem C10_assign_log_facility_null_deref :
    assign_log_facility .eof = .nullDeref ∧
    assign_log_facility .scanError = .nullDeref ∧
    assign_log_facility (.tok ⟨.string, "daemon"⟩) = .nullDeref ∧
    assign_log_facility (.tok ⟨.nl, "\n"⟩) = .nullDeref ∧
    assign_log_facility (.tok ⟨.ident, "Daemon"⟩) = .ok 24 ∧
    assign_log_facility (.tok ⟨.ident, "-"⟩) = .ok (-1) ∧
    assign_log_facility (.tok ⟨.ident, "nosuch"⟩) = .fail := by
  refine ⟨rfl, rfl, rfl, rfl, ?_, rfl, ?_⟩ <;> decide

end Pound
